import Mathlib

set_option maxRecDepth 10000

/-!
Shallow embedding of the `Button` debounce-and-gesture class
(`src/src/Button.h`, `src/src/Button.cpp`).

Machine integers are modelled as `Nat` with explicit reduction modulo
`2^8`, `2^16`, `2^32` at the points where the C code stores into a
`uint8_t`, `uint16_t` or `uint32_t` field.  The target is AVR, where
`int` is 16 bits wide; the one place this matters is the release-edge
test `(mState | ~MASK) == ~RISE`, where `~x` is the 16-bit bitwise
complement, modelled as `0xFFFF - x` (equal to `0xFFFF ^^^ x` for the
low-bit masks involved).
-/

/-- Modulus of a `uint8_t`. -/
def U8 : Nat := 256

/-- Modulus of a `uint16_t`. -/
def U16 : Nat := 65536

/-- Modulus of a `uint32_t`. -/
def U32 : Nat := 4294967296

/-- `UINT16_MAX` from `<stdint.h>`. -/
def UINT16_MAX : Nat := 65535

namespace Button

/-- `Button::MS_PER_TICK`: recommended poll interval in ms. -/
def MS_PER_TICK : Nat := 10

/-- `Button::MIN_LONG_PRESS`: minimum long press duration in ms. -/
def MIN_LONG_PRESS : Nat := 1000

/-- `Button::MAX_DOUBLE_PRESS`: max separation for a double click in ms. -/
def MAX_DOUBLE_PRESS : Nat := 200

/-- `NTICKS` from Button.cpp: level must be steady for 3 ticks. -/
def NTICKS : Nat := 3

/-- `MASK` from Button.cpp: `((1 << (NTICKS+1))-1)`, how many samples to look at. -/
def MASK : Nat := (1 <<< (NTICKS + 1)) - 1

/-- `RISE` from Button.cpp: `((1 << NTICKS)-1)`, expected pattern at start of keypress. -/
def RISE : Nat := (1 <<< NTICKS) - 1

end Button

/-- The per-instance state of a `Button` object: the private members
`mState, mLastPressed, mLastReleased, mMillis, mPending, mMillisPerTick`
and the public members `isDown, cPressed, cReleased, holdTime,
cShortPress, cLongPress, cDoublePress`. -/
structure ButtonState where
  mState : Nat          -- uint8_t, sample shift register
  mLastPressed : Nat    -- uint32_t
  mLastReleased : Nat   -- uint32_t
  mMillis : Nat         -- uint32_t
  mPending : Bool
  mMillisPerTick : Nat  -- uint8_t
  isDown : Bool
  cPressed : Nat        -- uint8_t
  cReleased : Nat       -- uint8_t
  holdTime : Nat        -- uint16_t
  cShortPress : Nat     -- uint8_t
  cLongPress : Nat      -- uint8_t
  cDoublePress : Nat    -- uint8_t
  deriving DecidableEq, Repr

namespace Button

/-- `Button::init()`: `mState = 0; isDown = false;` — nothing else is touched. -/
def init (s : ButtonState) : ButtonState :=
  { s with mState := 0, isDown := false }

/-- `Button::setMillisPerTick(uint8_t ms)`: `if (ms) mMillisPerTick = ms;`.
The argument is a `uint8_t`, so it is reduced mod `U8` before the test. -/
def setMillisPerTick (ms : Nat) (s : ButtonState) : ButtonState :=
  if ms % U8 ≠ 0 then { s with mMillisPerTick := ms % U8 } else s

/-- The shift-register update at the top of `Button::tick`:
`mState <<= 1; mState |= isPressed ? 1 : 0;` on a `uint8_t`. -/
def shift (st : Nat) (b : Bool) : Nat :=
  (st * 2 + (if b then 1 else 0)) % U8

/-- The press-edge test `(mState & MASK) == RISE`. -/
def pressPat (st : Nat) : Bool :=
  st &&& MASK == RISE

/-- The release-edge test `(mState | ~MASK) == ~RISE`.  `mState` is promoted
to the AVR's 16-bit `int`; `~x` is its bitwise complement `0xFFFF - x`
(for these low-bit masks), and equality of the two's-complement patterns is
plain equality of the 16-bit words. -/
def releasePat (st : Nat) : Bool :=
  (st ||| (65535 - MASK)) == (65535 - RISE)

/-- Unsigned 32-bit subtraction `(uint32_t)(a - b)`. -/
def usub32 (a b : Nat) : Nat :=
  (a + U32 - b % U32) % U32

/-- The guarded counter increment `if (c < UINT16_MAX) c++;` applied to the
`uint8_t` counters `cShortPress`, `cLongPress`, `cDoublePress`.  Note the
guard compares against `UINT16_MAX` although the counter is 8 bits wide. -/
def guardedInc (c : Nat) : Nat :=
  if c < UINT16_MAX then (c + 1) % U8 else c

/-- First two statements of `Button::tick`: advance `mMillis` by
`MS_PER_TICK` and push the new raw sample into the shift register. -/
def advance (b : Bool) (s : ButtonState) : ButtonState :=
  { s with mMillis := (s.mMillis + MS_PER_TICK) % U32,
           mState := shift s.mState b }

/-- The "just pressed?" block of `Button::tick`. -/
def pressBlock (s : ButtonState) : ButtonState :=
  if pressPat s.mState then
    { s with cPressed := (s.cPressed + 1) % U8,
             isDown := true,
             holdTime := 0,
             mPending := false,
             mLastPressed := s.mMillis }
  else s

/-- The classification inside the "just released?" block: long press,
else double press, else mark a possible short press as pending. -/
def classifyRelease (s : ButtonState) : ButtonState :=
  if s.holdTime > MIN_LONG_PRESS then
    { s with cLongPress := guardedInc s.cLongPress }
  else if usub32 s.mLastPressed s.mLastReleased < MAX_DOUBLE_PRESS then
    { s with cDoublePress := guardedInc s.cDoublePress }
  else
    { s with mPending := true }

/-- The "just released?" block of `Button::tick`: bump `cReleased`, clear
`isDown`, classify, then record `mLastReleased = mMillis`. -/
def releaseBlock (s : ButtonState) : ButtonState :=
  if releasePat s.mState then
    { classifyRelease { s with cReleased := (s.cReleased + 1) % U8,
                               isDown := false }
      with mLastReleased := s.mMillis }
  else s

/-- The hold-time accumulation of `Button::tick`:
`if (isDown && (holdTime < UINT16_MAX-MS_PER_TICK)) holdTime += MS_PER_TICK;`. -/
def holdBlock (s : ButtonState) : ButtonState :=
  if s.isDown = true ∧ s.holdTime < UINT16_MAX - MS_PER_TICK then
    { s with holdTime := (s.holdTime + MS_PER_TICK) % U16 }
  else s

/-- The pending-short-press maturation at the end of `Button::tick`:
`if (mPending && ((uint32_t)(mMillis - mLastReleased) > MAX_DOUBLE_PRESS))`. -/
def pendingBlock (s : ButtonState) : ButtonState :=
  if s.mPending = true ∧ usub32 s.mMillis s.mLastReleased > MAX_DOUBLE_PRESS then
    { s with mPending := false, cShortPress := guardedInc s.cShortPress }
  else s

/-- `Button::tick(uint8_t isPressed)`: the blocks in source order. -/
def tick (b : Bool) (s : ButtonState) : ButtonState :=
  pendingBlock (holdBlock (releaseBlock (pressBlock (advance b s))))

/-- Run `tick` over a list of raw samples, oldest first. -/
def runTicks : List Bool → ButtonState → ButtonState
  | [], s => s
  | b :: bs, s => runTicks bs (tick b s)

/-- The all-zero state: a static-storage instance after zero-initialization
and the `Button()` constructor (which calls `init()`). -/
def zeroState : ButtonState :=
  ⟨0, 0, 0, 0, false, 0, false, 0, 0, 0, 0, 0, 0⟩

/-- Bit `j` of `n`, as the filter comment reads the shift register:
`bitOf 0` is the newest sample. -/
def bitOf (j n : Nat) : Bool := n / 2 ^ j % 2 == 1

/-! ### Basic facts about the shift register and the edge patterns -/

theorem shift_lt (st : Nat) (b : Bool) : shift st b < U8 :=
  Nat.mod_lt _ (by decide)

theorem pat_excl_fin : ∀ m : Fin 256, ¬(pressPat m.val = true ∧ releasePat m.val = true) := by
  decide

theorem press_char_fin : ∀ m : Fin 256, ∀ b : Bool,
    pressPat (shift m.val b) = (!(bitOf 2 m.val) && bitOf 1 m.val && bitOf 0 m.val && b) := by
  decide

theorem release_char_fin : ∀ m : Fin 256, ∀ b : Bool,
    releasePat (shift m.val b) = (bitOf 2 m.val && !(bitOf 1 m.val) && !(bitOf 0 m.val) && !b) := by
  decide

theorem shift_bits_fin : ∀ m : Fin 256, ∀ b : Bool,
    bitOf 0 (shift m.val b) = b ∧ bitOf 1 (shift m.val b) = bitOf 0 m.val ∧
    bitOf 2 (shift m.val b) = bitOf 1 m.val := by
  decide

theorem press_excl {st : Nat} (h : st < U8) (hr : releasePat st = true) :
    pressPat st = false := by
  have := pat_excl_fin ⟨st, h⟩
  simp only [not_and] at this
  cases hp : pressPat st with
  | false => rfl
  | true => exact absurd hr (by simpa [hp] using this)

theorem release_excl {st : Nat} (h : st < U8) (hp : pressPat st = true) :
    releasePat st = false := by
  have := pat_excl_fin ⟨st, h⟩
  simp only [not_and] at this
  cases hr : releasePat st with
  | false => rfl
  | true => exact absurd hr (this hp)

theorem usub32_self (a : Nat) : usub32 a a = 0 := by
  unfold usub32 U32
  omega

/-! ### How each block of `tick` acts, under known edge conditions -/

theorem pressBlock_not {s : ButtonState} (h : pressPat s.mState = false) :
    pressBlock s = s := by
  unfold pressBlock
  simp [h]

theorem releaseBlock_not {s : ButtonState} (h : releasePat s.mState = false) :
    releaseBlock s = s := by
  unfold releaseBlock
  simp [h]

theorem holdBlock_not {s : ButtonState} (h : ¬(s.isDown = true ∧ s.holdTime < UINT16_MAX - MS_PER_TICK)) :
    holdBlock s = s := by
  unfold holdBlock
  simp only [if_neg h]

theorem pendingBlock_not {s : ButtonState}
    (h : ¬(s.mPending = true ∧ usub32 s.mMillis s.mLastReleased > MAX_DOUBLE_PRESS)) :
    pendingBlock s = s := by
  unfold pendingBlock
  simp only [if_neg h]

/-! ### What one `tick` does at each kind of edge -/

/-- At a press edge, `tick` bumps `cPressed` (mod 256), sets `isDown`,
restarts hold timing (the reset to 0 is followed by this tick's
accumulation, hence `holdTime = MS_PER_TICK`), clears the pending flag
and records the press timestamp. -/
theorem tick_press_edge (b : Bool) (s : ButtonState)
    (hp : pressPat (shift s.mState b) = true) :
    tick b s = { s with
      mState := shift s.mState b,
      mMillis := (s.mMillis + MS_PER_TICK) % U32,
      cPressed := (s.cPressed + 1) % U8,
      isDown := true,
      holdTime := MS_PER_TICK,
      mPending := false,
      mLastPressed := (s.mMillis + MS_PER_TICK) % U32 } := by
  have hr : releasePat (shift s.mState b) = false := release_excl (shift_lt _ _) hp
  unfold tick advance pressBlock releaseBlock holdBlock pendingBlock
  simp [hp, hr, MS_PER_TICK, U16, UINT16_MAX]

/-- At a release edge with a long hold, `tick` bumps `cReleased`, clears
`isDown`, applies the guarded `cLongPress` increment and records the
release timestamp; `cDoublePress`, `cShortPress` and `mPending` are untouched. -/
theorem tick_release_long (b : Bool) (s : ButtonState)
    (hr : releasePat (shift s.mState b) = true)
    (hl : s.holdTime > MIN_LONG_PRESS) :
    tick b s = { s with
      mState := shift s.mState b,
      mMillis := (s.mMillis + MS_PER_TICK) % U32,
      cReleased := (s.cReleased + 1) % U8,
      isDown := false,
      cLongPress := guardedInc s.cLongPress,
      mLastReleased := (s.mMillis + MS_PER_TICK) % U32 } := by
  have hp : pressPat (shift s.mState b) = false := press_excl (shift_lt _ _) hr
  unfold tick advance pressBlock releaseBlock classifyRelease holdBlock pendingBlock
  simp [hp, hr, hl, usub32_self, MAX_DOUBLE_PRESS]

/-- At a release edge with a short hold that began within the double-press
window of the previous release, `tick` applies the guarded `cDoublePress`
increment; `cLongPress`, `cShortPress` and `mPending` are untouched. -/
theorem tick_release_double (b : Bool) (s : ButtonState)
    (hr : releasePat (shift s.mState b) = true)
    (hl : ¬ s.holdTime > MIN_LONG_PRESS)
    (hd : usub32 s.mLastPressed s.mLastReleased < MAX_DOUBLE_PRESS) :
    tick b s = { s with
      mState := shift s.mState b,
      mMillis := (s.mMillis + MS_PER_TICK) % U32,
      cReleased := (s.cReleased + 1) % U8,
      isDown := false,
      cDoublePress := guardedInc s.cDoublePress,
      mLastReleased := (s.mMillis + MS_PER_TICK) % U32 } := by
  have hp : pressPat (shift s.mState b) = false := press_excl (shift_lt _ _) hr
  have hd2 : usub32 s.mLastPressed s.mLastReleased < 200 := hd
  unfold tick advance pressBlock releaseBlock classifyRelease holdBlock pendingBlock
  simp [hp, hr, hl, hd2, usub32_self, MAX_DOUBLE_PRESS]

/-- At a release edge that is neither long nor double, `tick` sets the
pending-short-press flag and no gesture counter changes. -/
theorem tick_release_pend (b : Bool) (s : ButtonState)
    (hr : releasePat (shift s.mState b) = true)
    (hl : ¬ s.holdTime > MIN_LONG_PRESS)
    (hd : ¬ usub32 s.mLastPressed s.mLastReleased < MAX_DOUBLE_PRESS) :
    tick b s = { s with
      mState := shift s.mState b,
      mMillis := (s.mMillis + MS_PER_TICK) % U32,
      cReleased := (s.cReleased + 1) % U8,
      isDown := false,
      mPending := true,
      mLastReleased := (s.mMillis + MS_PER_TICK) % U32 } := by
  have hp : pressPat (shift s.mState b) = false := press_excl (shift_lt _ _) hr
  have hd2 : ¬ usub32 s.mLastPressed s.mLastReleased < 200 := hd
  unfold tick advance pressBlock releaseBlock classifyRelease holdBlock pendingBlock
  simp [hp, hr, hl, hd2, usub32_self, MAX_DOUBLE_PRESS]

/-- With no edge, `tick` reduces to clock/shift advance followed by the
hold-time and pending-maturation blocks. -/
theorem tick_no_edge (b : Bool) (s : ButtonState)
    (hp : pressPat (shift s.mState b) = false)
    (hr : releasePat (shift s.mState b) = false) :
    tick b s = pendingBlock (holdBlock (advance b s)) := by
  unfold tick
  rw [pressBlock_not, releaseBlock_not] <;> simp [advance, hp, hr]

/-! ### Field projections of the individual blocks -/

theorem holdBlock_mState (s : ButtonState) : (holdBlock s).mState = s.mState := by
  unfold holdBlock
  split <;> rfl

theorem holdBlock_isDown (s : ButtonState) : (holdBlock s).isDown = s.isDown := by
  unfold holdBlock
  split <;> rfl

theorem holdBlock_mPending (s : ButtonState) : (holdBlock s).mPending = s.mPending := by
  unfold holdBlock
  split <;> rfl

theorem holdBlock_mMillis (s : ButtonState) : (holdBlock s).mMillis = s.mMillis := by
  unfold holdBlock
  split <;> rfl

theorem holdBlock_mLastReleased (s : ButtonState) :
    (holdBlock s).mLastReleased = s.mLastReleased := by
  unfold holdBlock
  split <;> rfl

theorem holdBlock_cShortPress (s : ButtonState) :
    (holdBlock s).cShortPress = s.cShortPress := by
  unfold holdBlock
  split <;> rfl

theorem pendingBlock_mState (s : ButtonState) : (pendingBlock s).mState = s.mState := by
  unfold pendingBlock
  split <;> rfl

theorem pendingBlock_isDown (s : ButtonState) : (pendingBlock s).isDown = s.isDown := by
  unfold pendingBlock
  split <;> rfl

theorem pendingBlock_holdTime (s : ButtonState) : (pendingBlock s).holdTime = s.holdTime := by
  unfold pendingBlock
  split <;> rfl

/-! ### Derived per-tick facts -/

/-- The shift register after a tick always holds `shift s.mState b`. -/
theorem tick_mState (b : Bool) (s : ButtonState) :
    (tick b s).mState = shift s.mState b := by
  by_cases hp : pressPat (shift s.mState b) = true
  · rw [tick_press_edge b s hp]
  · have hp2 : pressPat (shift s.mState b) = false := by simpa using hp
    by_cases hr : releasePat (shift s.mState b) = true
    · by_cases hl : s.holdTime > MIN_LONG_PRESS
      · rw [tick_release_long b s hr hl]
      · by_cases hd : usub32 s.mLastPressed s.mLastReleased < MAX_DOUBLE_PRESS
        · rw [tick_release_double b s hr hl hd]
        · rw [tick_release_pend b s hr hl hd]
    · have hr2 : releasePat (shift s.mState b) = false := by simpa using hr
      rw [tick_no_edge b s hp2 hr2, pendingBlock_mState, holdBlock_mState]
      rfl

/-- Without an edge, a tick leaves `isDown` unchanged. -/
theorem tick_isDown_no_edge (b : Bool) (s : ButtonState)
    (hp : pressPat (shift s.mState b) = false)
    (hr : releasePat (shift s.mState b) = false) :
    (tick b s).isDown = s.isDown := by
  rw [tick_no_edge b s hp hr, pendingBlock_isDown, holdBlock_isDown]
  rfl

/-- Without an edge, a pending short press matures exactly when the clock has
moved more than `MAX_DOUBLE_PRESS` past the recorded release. -/
theorem tick_mature (b : Bool) (s : ButtonState)
    (hp : pressPat (shift s.mState b) = false)
    (hr : releasePat (shift s.mState b) = false)
    (hpend : s.mPending = true)
    (hgt : usub32 ((s.mMillis + MS_PER_TICK) % U32) s.mLastReleased > MAX_DOUBLE_PRESS) :
    (tick b s).cShortPress = guardedInc s.cShortPress ∧ (tick b s).mPending = false := by
  rw [tick_no_edge b s hp hr]
  unfold pendingBlock
  rw [if_pos]
  · refine ⟨?_, rfl⟩
    show guardedInc (holdBlock (advance b s)).cShortPress = guardedInc s.cShortPress
    rw [holdBlock_cShortPress]
    rfl
  · refine ⟨?_, ?_⟩
    · rw [holdBlock_mPending]
      exact hpend
    · rw [holdBlock_mMillis, holdBlock_mLastReleased]
      exact hgt

/-- Without an edge, while the double-press window has not yet elapsed,
`cShortPress` and `mPending` are unchanged. -/
theorem tick_not_mature (b : Bool) (s : ButtonState)
    (hp : pressPat (shift s.mState b) = false)
    (hr : releasePat (shift s.mState b) = false)
    (hle : ¬ usub32 ((s.mMillis + MS_PER_TICK) % U32) s.mLastReleased > MAX_DOUBLE_PRESS) :
    (tick b s).cShortPress = s.cShortPress ∧ (tick b s).mPending = s.mPending := by
  rw [tick_no_edge b s hp hr]
  rw [pendingBlock_not]
  · rw [holdBlock_cShortPress, holdBlock_mPending]
    exact ⟨rfl, rfl⟩
  · rw [holdBlock_mMillis, holdBlock_mLastReleased]
    intro hc
    exact hle hc.2

/-- On any tick that is not a press edge, `holdTime` is unchanged or grows by
`MS_PER_TICK`, and it grows only from strictly below `UINT16_MAX - MS_PER_TICK`. -/
theorem tick_holdTime_no_press (b : Bool) (s : ButtonState)
    (hp : pressPat (shift s.mState b) = false) :
    (tick b s).holdTime = s.holdTime ∨
      (s.holdTime < UINT16_MAX - MS_PER_TICK ∧
        (tick b s).holdTime = s.holdTime + MS_PER_TICK) := by
  by_cases hr : releasePat (shift s.mState b) = true
  · left
    by_cases hl : s.holdTime > MIN_LONG_PRESS
    · rw [tick_release_long b s hr hl]
    · by_cases hd : usub32 s.mLastPressed s.mLastReleased < MAX_DOUBLE_PRESS
      · rw [tick_release_double b s hr hl hd]
      · rw [tick_release_pend b s hr hl hd]
  · have hr2 : releasePat (shift s.mState b) = false := by simpa using hr
    rw [tick_no_edge b s hp hr2, pendingBlock_holdTime]
    unfold holdBlock
    split
    · rename_i hc
      right
      have hlt : s.holdTime < UINT16_MAX - MS_PER_TICK := hc.2
      refine ⟨hlt, ?_⟩
      show ((advance b s).holdTime + MS_PER_TICK) % U16 = s.holdTime + MS_PER_TICK
      have : (advance b s).holdTime = s.holdTime := rfl
      rw [this]
      have hsmall : s.holdTime + MS_PER_TICK < U16 := by
        have h2 : s.holdTime < 65525 := hlt
        show s.holdTime + 10 < 65536
        omega
      exact Nat.mod_eq_of_lt hsmall
    · left
      rfl

/-- On a no-edge tick with the button debounced down and `holdTime` below the
ceiling, `holdTime` advances by exactly `MS_PER_TICK`. -/
theorem tick_holdTime_inc (b : Bool) (s : ButtonState)
    (hp : pressPat (shift s.mState b) = false)
    (hr : releasePat (shift s.mState b) = false)
    (hdown : s.isDown = true)
    (hlt : s.holdTime < UINT16_MAX - MS_PER_TICK) :
    (tick b s).holdTime = s.holdTime + MS_PER_TICK := by
  rw [tick_no_edge b s hp hr, pendingBlock_holdTime]
  unfold holdBlock
  rw [if_pos]
  · show ((advance b s).holdTime + MS_PER_TICK) % U16 = s.holdTime + MS_PER_TICK
    have h0 : (advance b s).holdTime = s.holdTime := rfl
    rw [h0]
    apply Nat.mod_eq_of_lt
    have h2 : s.holdTime < 65525 := hlt
    show s.holdTime + 10 < 65536
    omega
  · exact ⟨hdown, hlt⟩

/-- A history of three pressed samples followed by another pressed sample can
never fire the press edge: holding the button down never restarts `holdTime`. -/
theorem press_all_ones_fin : ∀ m : Fin 256, m.val % 8 = 7 →
    pressPat (shift m.val true) = false := by
  decide

/-! ### Chatter-free sample streams (for the debounce-rejection claim)

`chatterFree a b c L` holds when, reading the stream whose last three known
samples are `a, b, c` (oldest first) and which continues with `L`, no window
of four consecutive samples is `0,1,1,1` or `1,0,0,0` — i.e. the stream never
shows one sample of one polarity followed by `NTICKS` of the other. -/

def chatterFree : Bool → Bool → Bool → List Bool → Bool
  | _, _, _, [] => true
  | a, b, c, d :: rest =>
      !(!a && b && c && d) && !(a && !b && !c && !d) && chatterFree b c d rest

/-- Chatter rejection: over any chatter-free sample stream, `isDown` never
changes, no matter how the raw samples bounce inside the stream. -/
theorem isDown_const_of_chatterFree (s : ButtonState) (L : List Bool)
    (hlt : s.mState < U8)
    (hcf : chatterFree (bitOf 2 s.mState) (bitOf 1 s.mState) (bitOf 0 s.mState) L = true) :
    (runTicks L s).isDown = s.isDown := by
  induction L generalizing s with
  | nil => rfl
  | cons d rest ih =>
    simp only [chatterFree, Bool.and_eq_true, Bool.not_eq_true'] at hcf
    obtain ⟨⟨hw1, hw2⟩, hrest⟩ := hcf
    have hp : pressPat (shift s.mState d) = false := by
      have hc := press_char_fin ⟨s.mState, hlt⟩ d
      simp only at hc
      rw [hc, hw1]
    have hr : releasePat (shift s.mState d) = false := by
      have hc := release_char_fin ⟨s.mState, hlt⟩ d
      simp only at hc
      rw [hc, hw2]
    have hstep : runTicks (d :: rest) s = runTicks rest (tick d s) := rfl
    rw [hstep]
    have hbits := shift_bits_fin ⟨s.mState, hlt⟩ d
    simp only at hbits
    have hm : (tick d s).mState = shift s.mState d := tick_mState d s
    have ih2 := ih (tick d s) (by rw [hm]; exact shift_lt _ _)
      (by rw [hm, hbits.1, hbits.2.1, hbits.2.2]; exact hrest)
    rw [ih2]
    exact tick_isDown_no_edge d s hp hr

/-- Running a concatenated sample stream runs the two halves in order. -/
theorem runTicks_append (L1 L2 : List Bool) (s : ButtonState) :
    runTicks (L1 ++ L2) s = runTicks L2 (runTicks L1 s) := by
  induction L1 generalizing s with
  | nil => rfl
  | cons b bs ih => exact ih (tick b s)

/-- Below 255 the guarded increment is a plain increment. -/
theorem guardedInc_lt {c : Nat} (h : c < 255) : guardedInc c = c + 1 := by
  unfold guardedInc
  rw [if_pos (by unfold UINT16_MAX; omega)]
  exact Nat.mod_eq_of_lt (by unfold U8; omega)

/-! ### Concrete sample streams used in the scenario claims -/

/-- `n` ticks with the contact open. -/
def idle (n : Nat) : List Bool := List.replicate n false

/-- `n` ticks with the contact closed. -/
def held (n : Nat) : List Bool := List.replicate n true

/-- The raw 12-sample sequence `0,0,0,0,1,1,1,1,0,0,0,0` of the spec scenario. -/
def seq12 : List Bool :=
  [false, false, false, false, true, true, true, true, false, false, false, false]

/-- A press/release/press/release pair with the second press 30 ms after the
first release, preceded by 300 ms of idle (so the first release is not inside
the startup double-press window) and followed by 300 ms of idle. -/
def pairSeq : List Bool :=
  idle 30 ++ ([true, true, true, false, false, false,
               true, true, true, false, false, false] ++ idle 30)

/-- A press held for more than 1000 ms and then released. -/
def longSeq : List Bool := idle 5 ++ (held 105 ++ idle 24)

/-- A short press with no follow-up press, then a long idle wait. -/
def shortSeq : List Bool := idle 30 ++ (held 3 ++ idle 40)

/-! ### The claims -/

/-- C1: the claim says every counter saturates at its maximum and never wraps
to zero.  The code wraps: `cPressed++`/`cReleased++` are unguarded `uint8_t`
increments, and the guard `if (c < UINT16_MAX) c++` on the other three
`uint8_t` counters is vacuous (a `uint8_t` is always below `UINT16_MAX`).
Each counter standing at 255 returns to 0 on the very next event of its kind. -/
theorem claim_C1_counters_wrap :
    (tick true ⟨3, 0, 0, 0, false, 0, false, 255, 0, 0, 0, 0, 0⟩).cPressed = 0 ∧
    (tick false ⟨4, 0, 0, 0, false, 0, false, 0, 255, 0, 0, 0, 0⟩).cReleased = 0 ∧
    (tick false ⟨4, 0, 0, 0, false, 0, false, 0, 0, 2000, 0, 255, 0⟩).cLongPress = 0 ∧
    (tick false ⟨4, 100, 0, 0, false, 0, false, 0, 0, 40, 0, 0, 255⟩).cDoublePress = 0 ∧
    (tick false ⟨0, 0, 0, 300, true, 0, false, 0, 0, 0, 255, 0, 0⟩).cShortPress = 0 := by
  decide

/-- C2 counterexample: the claim says `init()` zeroes all per-instance state,
including the counters, whenever it is called.  On a state with
`cPressed = 5`, `init` leaves `cPressed` at 5, not 0. -/
theorem claim_C2_cex :
    ¬ ((init ⟨240, 40, 70, 100, true, 0, false, 5, 5, 30, 0, 0, 0⟩).cPressed = 0) := by
  decide

/-- C2 amended: `init()` clears only the sample history (`mState = 0`) and
`isDown`; the clock, the timestamps, the pending flag, `holdTime`, the
tick-period override and all five counters are left unchanged. -/
theorem claim_C2_init_partial (s : ButtonState) :
    (init s).mState = 0 ∧ (init s).isDown = false ∧
    (init s).mLastPressed = s.mLastPressed ∧
    (init s).mLastReleased = s.mLastReleased ∧
    (init s).mMillis = s.mMillis ∧
    (init s).mPending = s.mPending ∧
    (init s).mMillisPerTick = s.mMillisPerTick ∧
    (init s).cPressed = s.cPressed ∧
    (init s).cReleased = s.cReleased ∧
    (init s).holdTime = s.holdTime ∧
    (init s).cShortPress = s.cShortPress ∧
    (init s).cLongPress = s.cLongPress ∧
    (init s).cDoublePress = s.cDoublePress :=
  ⟨rfl, rfl, rfl, rfl, rfl, rfl, rfl, rfl, rfl, rfl, rfl, rfl, rfl⟩

/-- A debounced-down instance 100 ms into a hold, with a steady-high history
(`mState = 7`, `isDown`, `holdTime = 100`, pressed at 40 ms, clock at 130 ms). -/
def heldDownState : ButtonState :=
  ⟨7, 40, 0, 130, false, 0, true, 0, 0, 100, 0, 0, 0⟩

/-- Whatever value sits in `mMillisPerTick`, the next down-tick of
`heldDownState` advances `holdTime` by the constant 10, to 110. -/
theorem tick_heldDown_any (v : Nat) :
    (tick true { heldDownState with mMillisPerTick := v }).holdTime = 110 := by
  have hp : pressPat (shift ({ heldDownState with mMillisPerTick := v } : ButtonState).mState true) = false := by
    show pressPat (shift 7 true) = false
    decide
  have hr : releasePat (shift ({ heldDownState with mMillisPerTick := v } : ButtonState).mState true) = false := by
    show releasePat (shift 7 true) = false
    decide
  have hdown : ({ heldDownState with mMillisPerTick := v } : ButtonState).isDown = true := rfl
  have hlt : ({ heldDownState with mMillisPerTick := v } : ButtonState).holdTime < UINT16_MAX - MS_PER_TICK := by
    show (100 : Nat) < 65525
    omega
  rw [tick_holdTime_inc true _ hp hr hdown hlt]
  rfl

/-- C3: the claim says `setMillisPerTick(ms)` makes later down-ticks advance
`holdTime` by `ms`.  The code stores the override but `tick` never reads it:
after `setMillisPerTick 20` the next down-tick still adds the constant
`MS_PER_TICK = 10` (so `holdTime` goes 100 → 110, not 100 → 120), and the
same holds for every override value `v`. -/
theorem claim_C3_override_unused :
    (setMillisPerTick 20 heldDownState).mMillisPerTick = 20 ∧
    (tick true (setMillisPerTick 20 heldDownState)).holdTime = 110 ∧
    (∀ v : Nat, (tick true (setMillisPerTick v heldDownState)).holdTime = 110) := by
  refine ⟨by decide, by decide, ?_⟩
  intro v
  unfold setMillisPerTick
  split
  · exact tick_heldDown_any (v % U8)
  · decide

/-- C4 counterexample: the claim places the press edge at tick index 7 and
expects `countShortPress = 1` about 200 ms after the release.  In the code
the press edge has already fired after the first 7 samples (indices 0–6), and
`cShortPress` is still 0 thirty ticks after the sequence ends (the release
was classified as a double press instead). -/
theorem claim_C4_cex :
    (runTicks (seq12.take 7) zeroState).cPressed = 1 ∧
    (runTicks (seq12 ++ idle 30) zeroState).cShortPress = 0 := by
  constructor
  · decide
  · rw [runTicks_append]
    have h1 : runTicks seq12 zeroState =
        ⟨240, 70, 110, 120, false, 0, false, 1, 1, 40, 0, 0, 1⟩ := by decide
    rw [h1]
    decide

/-- C4 amended: with tick period 10 ms and N = 3, the sequence
`0,0,0,0,1,1,1,1,0,0,0,0` fires its one press edge at tick index 6 and its
one release edge at tick index 10, with `cPressed = 1`, `cReleased = 1` and
`holdTime = 40` ms at the release; because the press occurred 70 ms after
the clock start (`mLastReleased` still 0), the release is classified as a
double press: `cDoublePress = 1` and `cShortPress` stays 0, even 300 ms
later. -/
theorem claim_C4_amended :
    (runTicks (seq12.take 6) zeroState).cPressed = 0 ∧
    (runTicks (seq12.take 7) zeroState).cPressed = 1 ∧
    (runTicks (seq12.take 10) zeroState).cReleased = 0 ∧
    (runTicks (seq12.take 11) zeroState).cReleased = 1 ∧
    (runTicks seq12 zeroState).cPressed = 1 ∧
    (runTicks seq12 zeroState).cReleased = 1 ∧
    (runTicks seq12 zeroState).holdTime = 40 ∧
    (runTicks seq12 zeroState).cDoublePress = 1 ∧
    (runTicks seq12 zeroState).cShortPress = 0 ∧
    (runTicks (seq12 ++ idle 30) zeroState).cShortPress = 0 ∧
    (runTicks (seq12 ++ idle 30) zeroState).cDoublePress = 1 := by
  have h1 : runTicks seq12 zeroState =
      ⟨240, 70, 110, 120, false, 0, false, 1, 1, 40, 0, 0, 1⟩ := by decide
  refine ⟨by decide, by decide, by decide, by decide, by decide, by decide,
    by decide, by decide, by decide, ?_, ?_⟩
  · rw [runTicks_append, h1]
    decide
  · rw [runTicks_append, h1]
    decide

/-- C5: chatter rejection.  Over any sample stream that never shows one
sample of one polarity followed by `NTICKS` samples of the other (relative to
the last three samples already in the register), `isDown` never changes; and
on any single tick whose shifted register matches neither the press pattern
nor the release pattern, `isDown` is unchanged — it never flips on a lone
raw sample change. -/
theorem claim_C5_chatter_rejection :
    (∀ (s : ButtonState) (L : List Bool), s.mState < U8 →
      chatterFree (bitOf 2 s.mState) (bitOf 1 s.mState) (bitOf 0 s.mState) L = true →
      (runTicks L s).isDown = s.isDown) ∧
    (∀ (b : Bool) (s : ButtonState),
      pressPat (shift s.mState b) = false → releasePat (shift s.mState b) = false →
      (tick b s).isDown = s.isDown) :=
  ⟨isDown_const_of_chatterFree, tick_isDown_no_edge⟩

/-- Witness for C5: a wildly bouncing but chatter-free 7-sample stream from
the reset state leaves `isDown` where it was. -/
theorem claim_C5_witness :
    (runTicks [true, false, true, true, false, false, true] zeroState).isDown =
      zeroState.isDown :=
  claim_C5_chatter_rejection.1 zeroState [true, false, true, true, false, false, true]
    (by decide) (by decide)

/-- C6: at a release edge whose hold was not long and whose press came less
than `MAX_DOUBLE_PRESS` after the previous release, `cDoublePress` takes the
guarded increment while `cShortPress` and `mPending` are untouched; every
press edge clears `mPending`; and the concrete pair scenario ends with
`cDoublePress = 1` and `cShortPress = 0`. -/
theorem claim_C6_double_press :
    (∀ (b : Bool) (s : ButtonState),
      releasePat (shift s.mState b) = true →
      ¬ s.holdTime > MIN_LONG_PRESS →
      usub32 s.mLastPressed s.mLastReleased < MAX_DOUBLE_PRESS →
      (tick b s).cDoublePress = guardedInc s.cDoublePress ∧
      (tick b s).cShortPress = s.cShortPress ∧
      (tick b s).mPending = s.mPending) ∧
    (∀ (b : Bool) (s : ButtonState),
      pressPat (shift s.mState b) = true → (tick b s).mPending = false) ∧
    ((runTicks pairSeq zeroState).cDoublePress = 1 ∧
     (runTicks pairSeq zeroState).cShortPress = 0 ∧
     (runTicks pairSeq zeroState).cPressed = 2 ∧
     (runTicks pairSeq zeroState).cReleased = 2) := by
  refine ⟨?_, ?_, ?_⟩
  · intro b s hr hl hd
    rw [tick_release_double b s hr hl hd]
    exact ⟨rfl, rfl, rfl⟩
  · intro b s hp
    rw [tick_press_edge b s hp]
  · have hA : runTicks (idle 30) zeroState =
        ⟨0, 0, 0, 300, false, 0, false, 0, 0, 0, 0, 0, 0⟩ := by decide
    have hB : runTicks [true, true, true, false, false, false,
        true, true, true, false, false, false]
        (⟨0, 0, 0, 300, false, 0, false, 0, 0, 0, 0, 0, 0⟩ : ButtonState) =
        ⟨56, 390, 420, 420, false, 0, false, 2, 2, 30, 0, 0, 1⟩ := by decide
    have hsplit : runTicks pairSeq zeroState =
        runTicks (idle 30)
          (runTicks [true, true, true, false, false, false,
            true, true, true, false, false, false] (runTicks (idle 30) zeroState)) := by
      show runTicks (idle 30 ++ ([true, true, true, false, false, false,
        true, true, true, false, false, false] ++ idle 30)) zeroState = _
      rw [runTicks_append, runTicks_append]
    rw [hsplit, hA, hB]
    refine ⟨?_, ?_, ?_, ?_⟩ <;> decide

/-- A released state 40 ms into no-hold, pressed at 100 ms with the previous
release at 0 ms: a double-press release edge fires on the next low sample. -/
def wDouble : ButtonState := ⟨4, 100, 0, 150, false, 0, true, 1, 0, 40, 0, 0, 0⟩

/-- Witness for C6: the double-press release conclusion at `wDouble`. -/
theorem claim_C6_witness :
    (tick false wDouble).cDoublePress = guardedInc wDouble.cDoublePress ∧
    (tick false wDouble).cShortPress = wDouble.cShortPress ∧
    (tick false wDouble).mPending = wDouble.mPending :=
  claim_C6_double_press.1 false wDouble (by decide) (by decide) (by decide)

/-- C7: at a release edge with `holdTime` above `MIN_LONG_PRESS`, the release
is counted as a long press — `cDoublePress`, `cShortPress` and `mPending`
are untouched, whatever the gap to the previous release — and the concrete
long-hold scenario (whose press starts only 80 ms after the previous-release
timestamp 0, inside the double window) yields `cLongPress = 1` and no double
or short press. -/
theorem claim_C7_long_press :
    (∀ (b : Bool) (s : ButtonState),
      releasePat (shift s.mState b) = true →
      s.holdTime > MIN_LONG_PRESS →
      (tick b s).cDoublePress = s.cDoublePress ∧
      (tick b s).mPending = s.mPending ∧
      (tick b s).cShortPress = s.cShortPress ∧
      (s.cLongPress < 255 → (tick b s).cLongPress = s.cLongPress + 1)) ∧
    ((runTicks longSeq zeroState).cLongPress = 1 ∧
     (runTicks longSeq zeroState).cDoublePress = 0 ∧
     (runTicks longSeq zeroState).cShortPress = 0 ∧
     (runTicks longSeq zeroState).mPending = false) := by
  constructor
  · intro b s hr hl
    rw [tick_release_long b s hr hl]
    refine ⟨rfl, rfl, rfl, fun h255 => ?_⟩
    show guardedInc s.cLongPress = s.cLongPress + 1
    exact guardedInc_lt h255
  · have hsplit : runTicks longSeq zeroState =
        runTicks (idle 14) (runTicks (held 20 ++ idle 10) (runTicks (held 30)
          (runTicks (held 30) (runTicks (idle 5 ++ held 25) zeroState)))) := by
      have hL : longSeq = (idle 5 ++ held 25) ++ (held 30 ++ (held 30 ++
          ((held 20 ++ idle 10) ++ idle 14))) := by decide
      rw [hL, runTicks_append, runTicks_append, runTicks_append, runTicks_append]
    have h1 : runTicks (idle 5 ++ held 25) zeroState =
        ⟨255, 80, 0, 300, false, 0, true, 1, 0, 230, 0, 0, 0⟩ := by decide
    have h2 : runTicks (held 30)
        (⟨255, 80, 0, 300, false, 0, true, 1, 0, 230, 0, 0, 0⟩ : ButtonState) =
        ⟨255, 80, 0, 600, false, 0, true, 1, 0, 530, 0, 0, 0⟩ := by decide
    have h3 : runTicks (held 30)
        (⟨255, 80, 0, 600, false, 0, true, 1, 0, 530, 0, 0, 0⟩ : ButtonState) =
        ⟨255, 80, 0, 900, false, 0, true, 1, 0, 830, 0, 0, 0⟩ := by decide
    have h4 : runTicks (held 20 ++ idle 10)
        (⟨255, 80, 0, 900, false, 0, true, 1, 0, 830, 0, 0, 0⟩ : ButtonState) =
        ⟨0, 80, 1130, 1200, false, 0, false, 1, 1, 1050, 0, 1, 0⟩ := by decide
    rw [hsplit, h1, h2, h3, h4]
    refine ⟨?_, ?_, ?_, ?_⟩ <;> decide

/-- A state 1050 ms into a hold with an all-low recent history about to fire
the release edge. -/
def wLong : ButtonState := ⟨4, 80, 0, 1200, false, 0, true, 1, 0, 1050, 0, 0, 0⟩

/-- Witness for C7: the long-press release conclusion at `wLong`, whose press
timestamp (80) is within the double window of the previous release (0). -/
theorem claim_C7_witness :
    (tick false wLong).cDoublePress = wLong.cDoublePress ∧
    (tick false wLong).mPending = wLong.mPending ∧
    (tick false wLong).cShortPress = wLong.cShortPress ∧
    (wLong.cLongPress < 255 → (tick false wLong).cLongPress = wLong.cLongPress + 1) :=
  claim_C7_long_press.1 false wLong (by decide) (by decide)

/-- C8: a release neither long nor double only sets `mPending`, leaving
`cShortPress` untouched at the release tick; afterwards, while the clock has
not moved more than `MAX_DOUBLE_PRESS` past the recorded release, nothing
changes; at the first tick where it has, `cShortPress` increments and the
flag clears.  The concrete scenario (release at tick 35) still shows
`cShortPress = 0` after tick 55 and `cShortPress = 1` after tick 56 —
21 ticks (210 ms) after the release. -/
theorem claim_C8_short_press :
    (∀ (b : Bool) (s : ButtonState),
      releasePat (shift s.mState b) = true →
      ¬ s.holdTime > MIN_LONG_PRESS →
      ¬ usub32 s.mLastPressed s.mLastReleased < MAX_DOUBLE_PRESS →
      (tick b s).mPending = true ∧ (tick b s).cShortPress = s.cShortPress) ∧
    (∀ (b : Bool) (s : ButtonState),
      pressPat (shift s.mState b) = false →
      releasePat (shift s.mState b) = false →
      ¬ usub32 ((s.mMillis + MS_PER_TICK) % U32) s.mLastReleased > MAX_DOUBLE_PRESS →
      (tick b s).cShortPress = s.cShortPress ∧ (tick b s).mPending = s.mPending) ∧
    (∀ (b : Bool) (s : ButtonState),
      pressPat (shift s.mState b) = false →
      releasePat (shift s.mState b) = false →
      s.mPending = true →
      usub32 ((s.mMillis + MS_PER_TICK) % U32) s.mLastReleased > MAX_DOUBLE_PRESS →
      s.cShortPress < 255 →
      (tick b s).cShortPress = s.cShortPress + 1 ∧ (tick b s).mPending = false) ∧
    ((runTicks (idle 30 ++ (held 3 ++ idle 3)) zeroState).mPending = true ∧
     (runTicks (idle 30 ++ (held 3 ++ idle 3)) zeroState).cShortPress = 0 ∧
     (runTicks (idle 30 ++ (held 3 ++ idle 23)) zeroState).cShortPress = 0 ∧
     (runTicks (idle 30 ++ (held 3 ++ idle 24)) zeroState).cShortPress = 1 ∧
     (runTicks shortSeq zeroState).cShortPress = 1 ∧
     (runTicks shortSeq zeroState).mPending = false) := by
  refine ⟨?_, ?_, ?_, ?_⟩
  · intro b s hr hl hd
    rw [tick_release_pend b s hr hl hd]
    exact ⟨rfl, rfl⟩
  · intro b s hp hr hle
    exact tick_not_mature b s hp hr hle
  · intro b s hp hr hpend hgt h255
    have h := tick_mature b s hp hr hpend hgt
    rw [guardedInc_lt h255] at h
    exact h
  · have hA : runTicks (idle 30) zeroState =
        ⟨0, 0, 0, 300, false, 0, false, 0, 0, 0, 0, 0, 0⟩ := by decide
    have hs1 : runTicks (idle 30 ++ (held 3 ++ idle 3)) zeroState =
        runTicks (held 3 ++ idle 3) (runTicks (idle 30) zeroState) := runTicks_append _ _ _
    have hs2 : runTicks (idle 30 ++ (held 3 ++ idle 23)) zeroState =
        runTicks (held 3 ++ idle 23) (runTicks (idle 30) zeroState) := runTicks_append _ _ _
    have hs3 : runTicks (idle 30 ++ (held 3 ++ idle 24)) zeroState =
        runTicks (held 3 ++ idle 24) (runTicks (idle 30) zeroState) := runTicks_append _ _ _
    have hs4 : runTicks shortSeq zeroState =
        runTicks (held 3 ++ idle 40) (runTicks (idle 30) zeroState) := runTicks_append _ _ _
    rw [hs1, hs2, hs3, hs4, hA]
    refine ⟨?_, ?_, ?_, ?_, ?_, ?_⟩ <;> decide

/-- A state with a pending short press recorded at 360 ms, clock at 560 ms:
the next tick crosses the 200 ms double-press window. -/
def wShort : ButtonState := ⟨0, 330, 360, 560, true, 0, false, 1, 1, 30, 0, 0, 0⟩

/-- Witness for C8: the maturation conclusion at `wShort` — the short press
is counted exactly when the waiting window has elapsed. -/
theorem claim_C8_witness :
    (tick false wShort).cShortPress = wShort.cShortPress + 1 ∧
    (tick false wShort).mPending = false :=
  claim_C8_short_press.2.2.1 false wShort (by decide) (by decide) (by decide)
    (by decide) (by decide)

/-- C9: `holdTime` saturates.  With no press edge it never decreases; once it
is at or above `UINT16_MAX - MS_PER_TICK` it stops changing; from any value
at most 65534 it stays at most 65534 (so the 16-bit store never wraps); and
while the button is genuinely held (three pressed samples in the register and
a pressed sample arriving) no press edge can fire, so the hold measurement is
never restarted. -/
theorem claim_C9_holdTime_saturates :
    (∀ (b : Bool) (s : ButtonState),
      pressPat (shift s.mState b) = false →
      s.holdTime ≥ UINT16_MAX - MS_PER_TICK →
      (tick b s).holdTime = s.holdTime) ∧
    (∀ (b : Bool) (s : ButtonState),
      pressPat (shift s.mState b) = false →
      s.holdTime ≤ (tick b s).holdTime) ∧
    (∀ (b : Bool) (s : ButtonState),
      s.holdTime ≤ 65534 → (tick b s).holdTime ≤ 65534) ∧
    (∀ s : ButtonState, s.mState < U8 → s.mState % 8 = 7 →
      pressPat (shift s.mState true) = false) := by
  refine ⟨?_, ?_, ?_, ?_⟩
  · intro b s hp hge
    rcases tick_holdTime_no_press b s hp with h | ⟨hlt, _⟩
    · exact h
    · have h1 : (65525 : Nat) ≤ s.holdTime := hge
      have h2 : s.holdTime < 65525 := hlt
      omega
  · intro b s hp
    rcases tick_holdTime_no_press b s hp with h | ⟨_, h2⟩
    · rw [h]
    · rw [h2]
      exact Nat.le_add_right _ _
  · intro b s hb
    by_cases hp : pressPat (shift s.mState b) = true
    · rw [tick_press_edge b s hp]
      show MS_PER_TICK ≤ 65534
      decide
    · have hp2 : pressPat (shift s.mState b) = false := by simpa using hp
      rcases tick_holdTime_no_press b s hp2 with h | ⟨hlt, h2⟩
      · rw [h]
        exact hb
      · rw [h2]
        have h3 : s.holdTime < 65525 := hlt
        show s.holdTime + 10 ≤ 65534
        omega
  · intro s hlt h8
    exact press_all_ones_fin ⟨s.mState, hlt⟩ h8

/-- A held-down state with `holdTime` already at the 65530 ceiling. -/
def wCeil : ButtonState := ⟨255, 80, 0, 66000, false, 0, true, 1, 0, 65530, 0, 0, 0⟩

/-- Witness for C9: at the ceiling, one more held tick leaves `holdTime`
exactly where it was — no wrap toward zero. -/
theorem claim_C9_witness :
    (tick true wCeil).holdTime = wCeil.holdTime :=
  claim_C9_holdTime_saturates.1 true wCeil (by decide) (by decide)

/-- C10: every release edge takes exactly one of the three mutually exclusive
classification actions (long, double, or pend), each leaving the other two
gesture records untouched, and never touches `cShortPress` at that tick;
every press edge clears `mPending` and touches no gesture counter; and the
press and release patterns can never both match one register value. -/
theorem claim_C10_release_exclusive :
    (∀ (b : Bool) (s : ButtonState),
      releasePat (shift s.mState b) = true →
      ((s.holdTime > MIN_LONG_PRESS ∧
          (tick b s).cLongPress = guardedInc s.cLongPress ∧
          (tick b s).cDoublePress = s.cDoublePress ∧
          (tick b s).mPending = s.mPending) ∨
       (¬ s.holdTime > MIN_LONG_PRESS ∧
          usub32 s.mLastPressed s.mLastReleased < MAX_DOUBLE_PRESS ∧
          (tick b s).cDoublePress = guardedInc s.cDoublePress ∧
          (tick b s).cLongPress = s.cLongPress ∧
          (tick b s).mPending = s.mPending) ∨
       (¬ s.holdTime > MIN_LONG_PRESS ∧
          ¬ usub32 s.mLastPressed s.mLastReleased < MAX_DOUBLE_PRESS ∧
          (tick b s).mPending = true ∧
          (tick b s).cLongPress = s.cLongPress ∧
          (tick b s).cDoublePress = s.cDoublePress)) ∧
      (tick b s).cShortPress = s.cShortPress) ∧
    (∀ (b : Bool) (s : ButtonState),
      pressPat (shift s.mState b) = true →
      (tick b s).mPending = false ∧
      (tick b s).cShortPress = s.cShortPress ∧
      (tick b s).cLongPress = s.cLongPress ∧
      (tick b s).cDoublePress = s.cDoublePress) ∧
    (∀ st : Nat, st < U8 → ¬ (pressPat st = true ∧ releasePat st = true)) := by
  refine ⟨?_, ?_, ?_⟩
  · intro b s hr
    by_cases hl : s.holdTime > MIN_LONG_PRESS
    · rw [tick_release_long b s hr hl]
      exact ⟨Or.inl ⟨hl, rfl, rfl, rfl⟩, rfl⟩
    · by_cases hd : usub32 s.mLastPressed s.mLastReleased < MAX_DOUBLE_PRESS
      · rw [tick_release_double b s hr hl hd]
        exact ⟨Or.inr (Or.inl ⟨hl, hd, rfl, rfl, rfl⟩), rfl⟩
      · rw [tick_release_pend b s hr hl hd]
        exact ⟨Or.inr (Or.inr ⟨hl, hd, rfl, rfl, rfl⟩), rfl⟩
  · intro b s hp
    rw [tick_press_edge b s hp]
    exact ⟨rfl, rfl, rfl, rfl⟩
  · intro st hlt hc
    have h2 := press_excl hlt hc.2
    rw [hc.1] at h2
    exact Bool.noConfusion h2

/-- A short-hold state whose press came 100 ms after the previous release,
with `cShortPress` already at 3, about to fire a release edge. -/
def wDouble2 : ButtonState := ⟨4, 100, 0, 150, false, 0, true, 1, 0, 40, 3, 0, 0⟩

/-- Witness for C10: at `wDouble2` the release edge leaves `cShortPress` alone. -/
theorem claim_C10_witness :
    (tick false wDouble2).cShortPress = wDouble2.cShortPress :=
  (claim_C10_release_exclusive.1 false wDouble2 (by decide)).2

end Button
